import Mathlib

/-!
Verification of the work-order management backend (src/backend/server.py)
against its natural-language specification.

The source is a single FastAPI request-handling layer over a MongoDB document
store.  We shallowly embed it: each Mongo collection becomes a Lean list (in
insertion order; insert_one appends, find? returns the first match, update_one
rewrites the first match, delete_one removes the first match), each endpoint
becomes a pure Lean function from the request data and the database state to a
result and a new database state.  HTTPException raises become Except.error
values paired with the unchanged state (the source raises before any write on
every error path).  Values produced by out-of-model effects (uuid4, bcrypt,
jwt, datetime.now) enter as explicit String parameters.  Python floats are
modelled as exact rationals (Rat); every amount in the claims is exactly
representable in both.  The to_list(1000) batch materialisation of Mongo
cursors is the external store's paging API (the spec scopes the document store
out as an external collaborator providing queries), so find-with-query is
modelled as returning every matching document.
-/

namespace SjfCrm

/-- Roles, from the UserRole enum of the source. -/
inductive UserRole where
  | admin
  | supervisor
  | technician
  | client
deriving DecidableEq

/-- Work-order statuses, from the WorkOrderStatus enum of the source. -/
inductive WorkOrderStatus where
  | pending
  | in_progress
  | completed
  | approved
  | cancelled
deriving DecidableEq

/-- SLA urgency classes, from the SLAType enum of the source. -/
inductive SLAType where
  | normal
  | urgent
  | critical
deriving DecidableEq

/-- Request types, from the RequestType enum of the source. -/
inductive RequestType where
  | mep
  | civil
  | plumbing
  | electrical
  | hvac
  | other
deriving DecidableEq

/-- The string value of a WorkOrderStatus, as serialized by the source enum. -/
def statusStr : WorkOrderStatus → String
  | .pending => "pending"
  | .in_progress => "in_progress"
  | .completed => "completed"
  | .approved => "approved"
  | .cancelled => "cancelled"

/-- The User model of the source. -/
structure User where
  id : String
  email : String
  name : String
  role : UserRole
  password_hash : Option String
  picture : Option String
  is_active : Bool
  created_at : String
deriving DecidableEq

/-- The WorkOrder model of the source. -/
structure WorkOrder where
  id : String
  request_id : String
  title : String
  description : String
  status : WorkOrderStatus
  request_type : RequestType
  sla_type : SLAType
  location : String
  department : Option String
  client_id : String
  client_name : String
  assigned_to_id : Option String
  assigned_to_name : Option String
  start_date : Option String
  due_date : Option String
  completed_at : Option String
  duration_days : Option Int
  is_delayed : Bool
  total_cost : Rat
  created_by_id : String
  created_by_name : String
  created_at : String
  updated_at : String
deriving DecidableEq

/-- The WorkOrderCreate request model of the source. -/
structure WorkOrderCreate where
  title : String
  description : String
  request_type : RequestType
  sla_type : SLAType
  location : String
  department : Option String
  client_id : String
  assigned_to_id : Option String
  start_date : Option String
  due_date : Option String
  duration_days : Option Int
deriving DecidableEq

/-- The WorkOrderUpdate request model of the source; a none field was absent
or null in the PATCH body and is not written. -/
structure WorkOrderUpdate where
  title : Option String
  description : Option String
  status : Option WorkOrderStatus
  request_type : Option RequestType
  sla_type : Option SLAType
  location : Option String
  department : Option String
  assigned_to_id : Option String
  start_date : Option String
  due_date : Option String
  completed_at : Option String
  duration_days : Option Int
  total_cost : Option Rat
deriving DecidableEq

/-- The CostEntry model of the source. -/
structure CostEntry where
  id : String
  work_order_id : String
  description : String
  cost_type : String
  amount : Rat
  created_by_id : String
  created_by_name : String
  created_at : String
deriving DecidableEq

/-- The CostEntryCreate request model of the source.  Its work_order_id field
exists in the source but the endpoint uses the path parameter instead. -/
structure CostEntryCreate where
  work_order_id : String
  description : String
  cost_type : String
  amount : Rat
deriving DecidableEq

/-- The Notification model of the source. -/
structure Notification where
  id : String
  user_id : String
  title : String
  message : String
  link : Option String
  is_read : Bool
  created_at : String
deriving DecidableEq

/-- The UserCreate request model of the source (registration). -/
structure UserCreate where
  email : String
  name : String
  password : String
  role : UserRole
deriving DecidableEq

/-- The database state: the Mongo collections the verified endpoints touch,
as lists in insertion order. -/
structure DB where
  users : List User
  work_orders : List WorkOrder
  cost_entries : List CostEntry
  notifications : List Notification
deriving DecidableEq

/-- An HTTPException of the source: status code and detail message. -/
structure HTTPException where
  status_code : Nat
  detail : String
deriving DecidableEq

/-- Decidable equality of endpoint results, for evaluating the embedding at
concrete inputs. -/
def exceptDecEq {ε α : Type} [DecidableEq ε] [DecidableEq α] :
    (a b : Except ε α) → Decidable (a = b)
  | .error e1, .error e2 =>
    if h : e1 = e2 then .isTrue (by rw [h]) else .isFalse (fun hc => by cases hc; exact h rfl)
  | .error _, .ok _ => .isFalse (fun hc => by cases hc)
  | .ok _, .error _ => .isFalse (fun hc => by cases hc)
  | .ok a1, .ok a2 =>
    if h : a1 = a2 then .isTrue (by rw [h]) else .isFalse (fun hc => by cases hc; exact h rfl)

instance {ε α : Type} [DecidableEq ε] [DecidableEq α] : DecidableEq (Except ε α) :=
  exceptDecEq

/-- Python truthiness of an Optional str: None and the empty string are
falsy.  The source guards several branches with bare `if value:` tests. -/
def optTruthy : Option String → Bool
  | none => false
  | some s => !s.isEmpty

/-- Mongo update_one: rewrite the first element matching the filter. -/
def updateFirst (p : α → Bool) (f : α → α) : List α → List α
  | [] => []
  | x :: xs => if p x then f x :: xs else x :: updateFirst p f xs

/-- The require_role dependency of the source: role membership test. -/
def requiresRole (allowed : List UserRole) (u : User) : Bool :=
  allowed.contains u.role

/-- The create_notification helper of the source: builds a Notification
(is_read false) and inserts it. -/
def create_notification (db : DB) (nid now : String) (user_id title message : String)
    (link : Option String) : DB :=
  { db with notifications := db.notifications ++
      [{ id := nid, user_id := user_id, title := title, message := message,
         link := link, is_read := false, created_at := now }] }

/-- Decimal digits of n, least significant first, by fuel-indexed division;
decDigitsAux n n computes them for any n. -/
def decDigitsAux : Nat → Nat → List Nat
  | _, 0 => []
  | 0, _ + 1 => []
  | fuel + 1, n + 1 => ((n + 1) % 10) :: decDigitsAux fuel ((n + 1) / 10)

/-- Decimal digits of n, least significant first (empty for 0). -/
def decDigits (n : Nat) : List Nat := decDigitsAux n n

/-- The Python format f-string with spec 05d: the decimal rendering of n,
left-padded with zeros to at least five characters. -/
def pad5 (n : Nat) : String :=
  let ds := (decDigits n).reverse.map Nat.digitChar
  String.mk (List.replicate (5 - ds.length) '0' ++ ds)

/-- The role-scoped Mongo query of get_work_orders and get_dashboard_stats:
clients match their own orders, technicians their assigned ones, and the
query is empty (matches all) for admins and supervisors. -/
def woScope (current_user : User) (wo : WorkOrder) : Bool :=
  match current_user.role with
  | .client => wo.client_id == current_user.id
  | .technician => wo.assigned_to_id == some current_user.id
  | .admin => true
  | .supervisor => true

/-- GET /work-orders: the role-scoped query, sorted by created_at
descending. -/
def get_work_orders (current_user : User) (db : DB) : List WorkOrder :=
  (db.work_orders.filter (woScope current_user)).mergeSort
    fun a b => decide (b.created_at ≤ a.created_at)

/-- POST /work-orders.  The require_role dependency admits only admins and
supervisors; the request id is WO- followed by the zero-padded count of
existing orders plus one; the referenced client must exist; the assignee
display name is resolved when a truthy assignee id is given; one notification
goes to the client and, when the assignee id is truthy, one to the assignee.
The parameters woId, nId1, nId2 are the uuid4 values drawn for the order and
the notifications, and now the request timestamp. -/
def create_work_order (wo_data : WorkOrderCreate) (current_user : User) (db : DB)
    (woId nId1 nId2 now : String) : Except HTTPException WorkOrder × DB :=
  if !(requiresRole [.admin, .supervisor] current_user) then
    (.error ⟨403, "Insufficient permissions"⟩, db)
  else
    let count := db.work_orders.length
    let request_id := "WO-" ++ pad5 (count + 1)
    match db.users.find? (fun u => u.id == wo_data.client_id) with
    | none => (.error ⟨404, "Client not found"⟩, db)
    | some client =>
      let assigned_to_name : Option String :=
        if optTruthy wo_data.assigned_to_id then
          (db.users.find? (fun u => some u.id == wo_data.assigned_to_id)).map User.name
        else none
      let work_order : WorkOrder :=
        { id := woId
          request_id := request_id
          title := wo_data.title
          description := wo_data.description
          status := .pending
          request_type := wo_data.request_type
          sla_type := wo_data.sla_type
          location := wo_data.location
          department := wo_data.department
          client_id := wo_data.client_id
          client_name := client.name
          assigned_to_id := wo_data.assigned_to_id
          assigned_to_name := assigned_to_name
          start_date := wo_data.start_date
          due_date := wo_data.due_date
          completed_at := none
          duration_days := wo_data.duration_days
          is_delayed := false
          total_cost := 0
          created_by_id := current_user.id
          created_by_name := current_user.name
          created_at := now
          updated_at := now }
      let db1 := { db with work_orders := db.work_orders ++ [work_order] }
      let db2 := create_notification db1 nId1 now wo_data.client_id "New Work Order"
        ("Work order " ++ request_id ++ " has been created")
        (some ("/work-orders/" ++ woId))
      let db3 :=
        if optTruthy wo_data.assigned_to_id then
          create_notification db2 nId2 now (wo_data.assigned_to_id.getD "")
            "New Assignment"
            ("You have been assigned to work order " ++ request_id)
            (some ("/work-orders/" ++ woId))
        else db2
      (.ok work_order, db3)

/-- The merge of provided update fields over the current field value of an
optional column: Mongo only receives the non-null fields, so none keeps. -/
def orKeep (upd : Option α) (cur : Option α) : Option α :=
  match upd with
  | some v => some v
  | none => cur

/-- PATCH /work-orders/id.  Loads the order (404 if absent), then denies
clients and technicians not assigned to it, merges the provided non-null
fields, resolves and stores the assignee name (and notifies the new assignee)
when a truthy assignee id resolves to a user, refreshes updated_at, and
notifies the order's client whenever a status value was provided. -/
def update_work_order (work_order_id : String) (updates : WorkOrderUpdate)
    (current_user : User) (db : DB) (nId1 nId2 now : String) :
    Except HTTPException WorkOrder × DB :=
  match db.work_orders.find? (fun wo => wo.id == work_order_id) with
  | none => (.error ⟨404, "Work order not found"⟩, db)
  | some work_order =>
    if current_user.role == .client then
      (.error ⟨403, "Clients cannot update work orders"⟩, db)
    else if current_user.role == .technician
        && !(work_order.assigned_to_id == some current_user.id) then
      (.error ⟨403, "You can only update your assigned work orders"⟩, db)
    else
      let techFound : Option User :=
        if optTruthy updates.assigned_to_id then
          db.users.find? (fun u => some u.id == updates.assigned_to_id)
        else none
      -- the new-assignment notification is inserted before the document update
      let db1 :=
        match techFound with
        | some _ =>
          create_notification db nId1 now (updates.assigned_to_id.getD "")
            "New Assignment"
            ("You have been assigned to work order " ++ work_order.request_id)
            (some ("/work-orders/" ++ work_order_id))
        | none => db
      let merged : WorkOrder :=
        { work_order with
          title := updates.title.getD work_order.title
          description := updates.description.getD work_order.description
          status := updates.status.getD work_order.status
          request_type := updates.request_type.getD work_order.request_type
          sla_type := updates.sla_type.getD work_order.sla_type
          location := updates.location.getD work_order.location
          department := orKeep updates.department work_order.department
          assigned_to_id := orKeep updates.assigned_to_id work_order.assigned_to_id
          assigned_to_name :=
            (match techFound with
             | some tech => some tech.name
             | none => work_order.assigned_to_name)
          start_date := orKeep updates.start_date work_order.start_date
          due_date := orKeep updates.due_date work_order.due_date
          completed_at := orKeep updates.completed_at work_order.completed_at
          duration_days := orKeep updates.duration_days work_order.duration_days
          total_cost := updates.total_cost.getD work_order.total_cost
          updated_at := now }
      let db2 := { db1 with
        work_orders := updateFirst (fun wo => wo.id == work_order_id)
          (fun _ => merged) db1.work_orders }
      let db3 :=
        if updates.status.isSome then
          create_notification db2 nId2 now work_order.client_id "Work Order Updated"
            ("Work order " ++ work_order.request_id ++ " status changed to "
              ++ statusStr (updates.status.getD work_order.status))
            (some ("/work-orders/" ++ work_order_id))
        else db2
      (.ok merged, db3)

/-- DELETE /work-orders/id: admins and supervisors only; hard delete of the
first matching document; 404 when nothing was deleted. -/
def delete_work_order (work_order_id : String) (current_user : User) (db : DB) :
    Except HTTPException Unit × DB :=
  if !(requiresRole [.admin, .supervisor] current_user) then
    (.error ⟨403, "Insufficient permissions"⟩, db)
  else if db.work_orders.any (fun wo => wo.id == work_order_id) then
    (.ok (), { db with
      work_orders := db.work_orders.eraseP (fun wo => wo.id == work_order_id) })
  else
    (.error ⟨404, "Work order not found"⟩, db)

/-- POST /work-orders/id/costs: admins, supervisors and technicians may add a
cost entry; the parent order must exist; the entry is inserted, then
total_cost on the order is recomputed as the sum of the amounts of every cost
entry stored for the order and written together with a fresh updated_at. -/
def create_cost_entry (work_order_id : String) (cost_data : CostEntryCreate)
    (current_user : User) (db : DB) (ceId now : String) :
    Except HTTPException CostEntry × DB :=
  if !(requiresRole [.admin, .supervisor, .technician] current_user) then
    (.error ⟨403, "Insufficient permissions"⟩, db)
  else
    match db.work_orders.find? (fun wo => wo.id == work_order_id) with
    | none => (.error ⟨404, "Work order not found"⟩, db)
    | some _ =>
      let cost_entry : CostEntry :=
        { id := ceId
          work_order_id := work_order_id
          description := cost_data.description
          cost_type := cost_data.cost_type
          amount := cost_data.amount
          created_by_id := current_user.id
          created_by_name := current_user.name
          created_at := now }
      let db1 := { db with cost_entries := db.cost_entries ++ [cost_entry] }
      let all_costs := db1.cost_entries.filter (fun c => c.work_order_id == work_order_id)
      let total_cost := (all_costs.map CostEntry.amount).sum
      let db2 := { db1 with
        work_orders := updateFirst (fun wo => wo.id == work_order_id)
          (fun wo => { wo with total_cost := total_cost, updated_at := now })
          db1.work_orders }
      (.ok cost_entry, db2)

/-- The public payload of a successful registration: token plus the exposed
user fields. -/
structure RegisterResponse where
  token : String
  user_id : String
  user_email : String
  user_name : String
  user_role : UserRole
deriving DecidableEq

/-- POST /auth/register.  Duplicate email fails before any write; the spec's
error taxonomy names this failure Conflict and maps it to HTTP 400.  The
values of hash_password and create_access_token (bcrypt salt, jwt clock)
enter as the parameters hashed and token; newId is the drawn uuid4. -/
def register (user_data : UserCreate) (db : DB) (newId hashed token now : String) :
    Except HTTPException RegisterResponse × DB :=
  if (db.users.find? (fun u => u.email == user_data.email)).isSome then
    (.error ⟨400, "Email already registered"⟩, db)
  else
    let user : User :=
      { id := newId
        email := user_data.email
        name := user_data.name
        role := user_data.role
        password_hash := some hashed
        picture := none
        is_active := true
        created_at := now }
    (.ok { token := token, user_id := user.id, user_email := user.email,
           user_name := user.name, user_role := user.role },
     { db with users := db.users ++ [user] })

/-- The projection of a stored user returned by GET /users: every field
except password_hash, which the Mongo projection of the source excludes. -/
structure UserPublic where
  id : String
  email : String
  name : String
  role : UserRole
  picture : Option String
  is_active : Bool
  created_at : String
deriving DecidableEq

/-- The field projection applied by GET /users to each stored user. -/
def userPublic (u : User) : UserPublic :=
  { id := u.id, email := u.email, name := u.name, role := u.role,
    picture := u.picture, is_active := u.is_active, created_at := u.created_at }

/-- GET /users: admins and supervisors list every user, projected without
the password hash. -/
def get_users (current_user : User) (db : DB) : Except HTTPException (List UserPublic) :=
  if !(requiresRole [.admin, .supervisor] current_user) then
    .error ⟨403, "Insufficient permissions"⟩
  else
    .ok (db.users.map userPublic)

/-- The response of GET /dashboard/stats. -/
structure DashboardStats where
  total_orders : Nat
  pending : Nat
  in_progress : Nat
  completed : Nat
  approved : Nat
  total_cost : Rat
  completion_rate : Rat
deriving DecidableEq

/-- Rounding half to even, the behavior of the Python builtin round on an
exactly representable value. -/
def roundHalfEven (q : Rat) : Int :=
  let f := ⌊q⌋
  if q - f < 1 / 2 then f
  else if (1 : Rat) / 2 < q - f then f + 1
  else if f % 2 = 0 then f else f + 1

/-- Python round(x, 2): round half to even at two decimal places. -/
def pyRound2 (q : Rat) : Rat := (roundHalfEven (q * 100) : Rat) / 100

/-- GET /dashboard/stats: counts per status over the role-scoped query, the
sum of total_cost over the scoped orders, and the completion rate
(completed + approved) / total * 100 rounded to two decimals, 0 when the
scope is empty. -/
def get_dashboard_stats (current_user : User) (db : DB) : DashboardStats :=
  let q := woScope current_user
  let total_orders := db.work_orders.countP q
  let pending := db.work_orders.countP (fun wo => q wo && wo.status == .pending)
  let in_progress := db.work_orders.countP (fun wo => q wo && wo.status == .in_progress)
  let completed := db.work_orders.countP (fun wo => q wo && wo.status == .completed)
  let approved := db.work_orders.countP (fun wo => q wo && wo.status == .approved)
  let total_cost := ((db.work_orders.filter q).map WorkOrder.total_cost).sum
  let completion_rate : Rat :=
    if total_orders > 0 then
      (((completed : Rat) + (approved : Rat)) / (total_orders : Rat)) * 100
    else 0
  { total_orders := total_orders
    pending := pending
    in_progress := in_progress
    completed := completed
    approved := approved
    total_cost := total_cost
    completion_rate := pyRound2 completion_rate }

/-! Concrete sample data used by witnesses and counterexamples. -/

/-- A stored admin user. -/
def adminUser : User :=
  { id := "u-admin", email := "admin@x.com", name := "Admin", role := .admin,
    password_hash := some "h0", picture := none, is_active := true,
    created_at := "2026-01-01T00:00:00" }

/-- A stored client user. -/
def clientUser : User :=
  { id := "u-client", email := "client@x.com", name := "Client", role := .client,
    password_hash := some "h1", picture := none, is_active := true,
    created_at := "2026-01-01T00:00:01" }

/-- A stored technician user. -/
def techUser : User :=
  { id := "u-tech", email := "tech@x.com", name := "Tech", role := .technician,
    password_hash := some "h2", picture := none, is_active := true,
    created_at := "2026-01-01T00:00:02" }

/-- A store holding the three sample users and nothing else. -/
def db0 : DB :=
  { users := [adminUser, clientUser, techUser], work_orders := [],
    cost_entries := [], notifications := [] }

/-- A stored work order of the sample client, assigned to the technician. -/
def woA : WorkOrder :=
  { id := "wo-1", request_id := "WO-00001", title := "Fix AC",
    description := "broken", status := .pending, request_type := .hvac,
    sla_type := .normal, location := "HQ", department := none,
    client_id := "u-client", client_name := "Client",
    assigned_to_id := some "u-tech", assigned_to_name := some "Tech",
    start_date := none, due_date := none, completed_at := none,
    duration_days := none, is_delayed := false, total_cost := 0,
    created_by_id := "u-admin", created_by_name := "Admin",
    created_at := "t0", updated_at := "t0" }

/-- The sample store with the one work order added. -/
def dbOne : DB := { db0 with work_orders := [woA] }

/-- A PATCH body providing no field at all. -/
def noUpdate : WorkOrderUpdate :=
  { title := none, description := none, status := none, request_type := none,
    sla_type := none, location := none, department := none,
    assigned_to_id := none, start_date := none, due_date := none,
    completed_at := none, duration_days := none, total_cost := none }

/-- A create request for the sample client with no assignee. -/
def woCreateNoAssignee : WorkOrderCreate :=
  { title := "Fix AC", description := "broken", request_type := .hvac,
    sla_type := .normal, location := "HQ", department := none,
    client_id := "u-client", assigned_to_id := none, start_date := none,
    due_date := none, duration_days := none }

/-- The create request with the technician as assignee. -/
def woCreateTech : WorkOrderCreate := { woCreateNoAssignee with assigned_to_id := some "u-tech" }

/-- The create request with an empty-string assignee id. -/
def woCreateEmptyAssignee : WorkOrderCreate :=
  { woCreateNoAssignee with assigned_to_id := some "" }

/-- A cost entry request of the given amount. -/
def costCreate (amt : Rat) : CostEntryCreate :=
  { work_order_id := "wo-1", description := "parts", cost_type := "material",
    amount := amt }

/-! General helper lemmas about the embedded operations. -/

/-- Finding after updateFirst with the same filter returns the image of the
previous find, provided the rewrite preserves the filter. -/
theorem find?_updateFirst (p : α → Bool) (f : α → α) (l : List α)
    (hf : ∀ x, p x = true → p (f x) = true) :
    (updateFirst p f l).find? p = (l.find? p).map f := by
  induction l with
  | nil => rfl
  | cons x xs ih =>
    by_cases hx : p x = true
    · simp [updateFirst, hx, List.find?_cons_of_pos, hf x hx]
    · simp [updateFirst, hx, List.find?_cons_of_neg, ih]

/-! Claim C1. -/

/-- The role ownership predicate stated by the spec: a client owns the orders
with its client id, a technician the orders assigned to it, admins and
supervisors all orders. -/
def ownershipPred (u : User) (wo : WorkOrder) : Prop :=
  match u.role with
  | .client => wo.client_id = u.id
  | .technician => wo.assigned_to_id = some u.id
  | .admin => True
  | .supervisor => True

/-- C1: for every authenticated user, listing work orders returns exactly the
set of stored work orders matching the user's role ownership predicate
(client: own orders; technician: assigned orders; admin and supervisor: all
orders). -/
theorem get_work_orders_exactly_scoped (current_user : User) (db : DB) (wo : WorkOrder) :
    wo ∈ get_work_orders current_user db ↔
      wo ∈ db.work_orders ∧ ownershipPred current_user wo := by
  unfold get_work_orders ownershipPred woScope
  rw [List.mem_mergeSort, List.mem_filter]
  cases current_user.role <;> simp

/-! Claim C7. -/

/-- C7: registering with an email already belonging to a stored user fails
with the Conflict error of the spec's taxonomy (HTTP 400, duplicate email on
register), leaves the whole user store unchanged, and issues no token. -/
theorem register_duplicate_email_conflict (user_data : UserCreate) (db : DB)
    (newId hashed token now : String)
    (h : ∃ u ∈ db.users, u.email = user_data.email) :
    register user_data db newId hashed token now =
      (.error ⟨400, "Email already registered"⟩, db) := by
  unfold register
  have hs : (db.users.find? (fun u => u.email == user_data.email)).isSome = true := by
    rw [List.find?_isSome]
    obtain ⟨u, hu, he⟩ := h
    exact ⟨u, hu, by simp [he]⟩
  simp [hs]

/-- Witness for C7 at a concrete duplicate registration. -/
theorem register_duplicate_email_conflict_witness :
    (∃ u ∈ db0.users,
        u.email = (UserCreate.mk "client@x.com" "Other" "pw" .client).email) ∧
      register (UserCreate.mk "client@x.com" "Other" "pw" .client) db0 "nu" "hh" "tok" "t" =
        (.error ⟨400, "Email already registered"⟩, db0) :=
  ⟨by decide,
   register_duplicate_email_conflict (UserCreate.mk "client@x.com" "Other" "pw" .client)
     db0 "nu" "hh" "tok" "t" (by decide)⟩

/-! Claim C10. -/

/-- Two stored users agreeing on every field other than the password hash. -/
def agreeExceptHash (a b : User) : Prop :=
  a.id = b.id ∧ a.email = b.email ∧ a.name = b.name ∧ a.role = b.role ∧
  a.picture = b.picture ∧ a.is_active = b.is_active ∧ a.created_at = b.created_at

/-- The public projection coincides on users agreeing except on the hash. -/
theorem userPublic_eq_of_agree {a b : User} (h : agreeExceptHash a b) :
    userPublic a = userPublic b := by
  obtain ⟨h1, h2, h3, h4, h5, h6, h7⟩ := h
  simp [userPublic, h1, h2, h3, h4, h5, h6, h7]

/-- C10: the user-listing response never contains a password hash: its entry
type carries no such field, and for any two user stores that differ only in
the stored password hashes the listing returns the same result. -/
theorem get_users_independent_of_password_hash (current_user : User) (db1 db2 : DB)
    (h : List.Forall₂ agreeExceptHash db1.users db2.users) :
    get_users current_user db1 = get_users current_user db2 := by
  have hmap : ∀ {l1 l2 : List User}, List.Forall₂ agreeExceptHash l1 l2 →
      l1.map userPublic = l2.map userPublic := by
    intro l1 l2 hf
    induction hf with
    | nil => rfl
    | cons hab _ ih => simp [List.map_cons, userPublic_eq_of_agree hab, ih]
  unfold get_users
  by_cases hr : requiresRole [.admin, .supervisor] current_user
  · simp [hr, hmap h]
  · simp [hr]

/-- A user store with one hash, for the C10 witness. -/
def dbHashA : DB := { db0 with users := [adminUser, clientUser] }

/-- The same user store with a different stored client hash. -/
def dbHashB : DB :=
  { db0 with users := [adminUser, { clientUser with password_hash := some "other-hash" }] }

/-- Witness for C10 on two concrete stores differing only in one hash. -/
theorem get_users_independent_of_password_hash_witness :
    List.Forall₂ agreeExceptHash dbHashA.users dbHashB.users ∧
      get_users adminUser dbHashA = get_users adminUser dbHashB :=
  ⟨by simp [dbHashA, dbHashB, agreeExceptHash, adminUser, clientUser, db0],
   get_users_independent_of_password_hash adminUser dbHashA dbHashB
     (by simp [dbHashA, dbHashB, agreeExceptHash, adminUser, clientUser, db0])⟩

/-! Claim C2. -/

/-- Counterexample to C2 as stated: a client PATCH on an absent work-order id
fails with NotFound (404), not Forbidden (403), because the endpoint loads
the order before checking the caller's role. -/
theorem client_update_absent_order_not_forbidden :
    (update_work_order "missing" noUpdate clientUser db0 "na" "nb" "t").1 =
      .error ⟨404, "Work order not found"⟩ ∧ (404 : Nat) ≠ 403 := by
  constructor
  · rfl
  · decide

/-- C2 (amended): for every client, create and delete always fail Forbidden
(403); update fails Forbidden when the target order exists and NotFound (404)
when it is absent; in every case the store is unchanged. -/
theorem client_work_order_mutations_denied (current_user : User)
    (h : current_user.role = .client) (db : DB) :
    (∀ wo_data woId nId1 nId2 now,
      create_work_order wo_data current_user db woId nId1 nId2 now =
        (.error ⟨403, "Insufficient permissions"⟩, db)) ∧
    (∀ work_order_id updates nId1 nId2 now,
      update_work_order work_order_id updates current_user db nId1 nId2 now =
        (.error
          (if db.work_orders.any (fun wo => wo.id == work_order_id) then
            ⟨403, "Clients cannot update work orders"⟩
          else ⟨404, "Work order not found"⟩), db)) ∧
    (∀ work_order_id,
      delete_work_order work_order_id current_user db =
        (.error ⟨403, "Insufficient permissions"⟩, db)) := by
  refine ⟨?_, ?_, ?_⟩
  · intro wo_data woId nId1 nId2 now
    simp [create_work_order, requiresRole, h]
  · intro work_order_id updates nId1 nId2 now
    unfold update_work_order
    cases hfind : db.work_orders.find? (fun wo => wo.id == work_order_id) with
    | none =>
      have hany : db.work_orders.any (fun wo => wo.id == work_order_id) = false := by
        rw [List.any_eq_false]
        intro x hx
        exact List.find?_eq_none.mp hfind x hx
      simp [hany]
    | some wo =>
      have hany : db.work_orders.any (fun wo => wo.id == work_order_id) = true := by
        rw [List.any_eq_true]
        have hp : (wo.id == work_order_id) = true := by
          simpa using List.find?_some hfind
        exact ⟨wo, List.mem_of_find?_eq_some hfind, hp⟩
      simp [h, hany]
  · intro work_order_id
    simp [delete_work_order, requiresRole, h]

/-- Witness for the amended C2 at a concrete client, store and order id. -/
theorem client_work_order_mutations_denied_witness :
    clientUser.role = .client ∧
    create_work_order woCreateNoAssignee clientUser dbOne "w" "na" "nb" "t" =
      (.error ⟨403, "Insufficient permissions"⟩, dbOne) ∧
    update_work_order "wo-1" noUpdate clientUser dbOne "na" "nb" "t" =
      (.error ⟨403, "Clients cannot update work orders"⟩, dbOne) ∧
    delete_work_order "wo-1" clientUser dbOne =
      (.error ⟨403, "Insufficient permissions"⟩, dbOne) := by
  refine ⟨rfl, ?_, ?_, ?_⟩
  · exact (client_work_order_mutations_denied clientUser rfl dbOne).1
      woCreateNoAssignee "w" "na" "nb" "t"
  · have := (client_work_order_mutations_denied clientUser rfl dbOne).2.1
      "wo-1" noUpdate "na" "nb" "t"
    simpa using this
  · exact (client_work_order_mutations_denied clientUser rfl dbOne).2.2 "wo-1"

/-! Claim C3. -/

/-- First concrete cost insertion: amount 10.0 on the sample order. -/
def c3step1 : Except HTTPException CostEntry × DB :=
  create_cost_entry "wo-1" (costCreate 10.0) techUser dbOne "ce1" "t1"

/-- Second concrete cost insertion: amount 25.5. -/
def c3step2 : Except HTTPException CostEntry × DB :=
  create_cost_entry "wo-1" (costCreate 25.5) techUser c3step1.2 "ce2" "t2"

/-- Third concrete cost insertion: amount 4.5. -/
def c3step3 : Except HTTPException CostEntry × DB :=
  create_cost_entry "wo-1" (costCreate 4.5) techUser c3step2.2 "ce3" "t3"

/-- Finding the target order after the total-cost rewrite of the first match
returns the rewritten order. -/
theorem find?_updateFirst_setCost (woid : String) (T : Rat) (now : String)
    (l : List WorkOrder) :
    (updateFirst (fun wo => wo.id == woid)
        (fun wo => { wo with total_cost := T, updated_at := now }) l).find?
        (fun wo => wo.id == woid) =
      (l.find? (fun wo => wo.id == woid)).map
        (fun wo => { wo with total_cost := T, updated_at := now }) :=
  find?_updateFirst _ _ l (fun x hx => by simpa using hx)

/-- C3: after every successful cost-entry insertion the target work order's
total_cost equals the sum of the amounts of all cost entries stored for that
order; in particular amounts 10.0 and 25.5 yield 35.5 and a further 4.5
yields 40.0. -/
theorem cost_entry_total_invariant :
    (∀ (work_order_id : String) (cost_data : CostEntryCreate) (current_user : User)
        (db : DB) (ceId now : String),
      (create_cost_entry work_order_id cost_data current_user db ceId now).1.isOk = true →
      ((create_cost_entry work_order_id cost_data current_user db ceId now).2.work_orders.find?
          (fun wo => wo.id == work_order_id)).map WorkOrder.total_cost =
        some ((((create_cost_entry work_order_id cost_data current_user db
            ceId now).2.cost_entries.filter
            (fun c => c.work_order_id == work_order_id)).map CostEntry.amount).sum)) ∧
    ((c3step2.2.work_orders.find? (fun wo => wo.id == "wo-1")).map WorkOrder.total_cost =
      some 35.5) ∧
    ((c3step3.2.work_orders.find? (fun wo => wo.id == "wo-1")).map WorkOrder.total_cost =
      some 40.0) := by
  refine ⟨?_, ?_, ?_⟩
  · intro work_order_id cost_data current_user db ceId now hok
    by_cases hr : requiresRole [.admin, .supervisor, .technician] current_user
    · simp only [create_cost_entry, hr, Bool.not_true, Bool.false_eq_true, if_false] at hok ⊢
      cases hfind : db.work_orders.find? (fun wo => wo.id == work_order_id) with
      | none =>
        simp only [hfind] at hok
        simp [Except.isOk, Except.toBool] at hok
      | some wo0 =>
        simp only [hfind] at hok ⊢
        rw [find?_updateFirst_setCost, hfind]
        rfl
    · simp at hr
      simp [create_cost_entry, hr, Except.isOk, Except.toBool] at hok
  · norm_num [c3step2, c3step1, create_cost_entry, costCreate, dbOne, db0, woA,
      techUser, requiresRole, updateFirst]
  · norm_num [c3step3, c3step2, c3step1, create_cost_entry, costCreate, dbOne, db0,
      woA, techUser, requiresRole, updateFirst]

/-- Witness for C3 applying the invariant at the first concrete insertion. -/
theorem cost_entry_total_invariant_witness :
    ((create_cost_entry "wo-1" (costCreate 10.0) techUser dbOne "ce1" "t1").1.isOk = true) ∧
    (((create_cost_entry "wo-1" (costCreate 10.0) techUser dbOne
        "ce1" "t1").2.work_orders.find?
        (fun wo => wo.id == "wo-1")).map WorkOrder.total_cost =
      some ((((create_cost_entry "wo-1" (costCreate 10.0) techUser dbOne
          "ce1" "t1").2.cost_entries.filter
          (fun c => c.work_order_id == "wo-1")).map CostEntry.amount).sum)) :=
  ⟨by decide,
   cost_entry_total_invariant.1 "wo-1" (costCreate 10.0) techUser dbOne "ce1" "t1"
     (by decide)⟩

/-! Claim C5. -/

/-- A PATCH body providing the status the sample order already has. -/
def statusSameUpdate : WorkOrderUpdate := { noUpdate with status := some .pending }

/-- A PATCH body providing a genuinely new status. -/
def statusNewUpdate : WorkOrderUpdate := { noUpdate with status := some .completed }

/-- Counterexample to C5 as stated: updating the sample order with its
current status (pending, unchanged) still emits a status notification,
because the endpoint notifies whenever a status value is provided. -/
theorem update_unchanged_status_still_notifies :
    (update_work_order "wo-1" statusSameUpdate adminUser dbOne "na" "nb" "t4").1 =
      .ok { woA with updated_at := "t4" } ∧
    ((update_work_order "wo-1" statusSameUpdate adminUser dbOne "na" "nb"
        "t4").2.work_orders.find? (fun w => w.id == "wo-1")).map WorkOrder.status =
      some woA.status ∧
    ((update_work_order "wo-1" statusSameUpdate adminUser dbOne "na" "nb"
        "t4").2.notifications.filter
        (fun n => n.title == "Work Order Updated")).length = 1 ∧
    (1 : Nat) ≠ 0 := by
  refine ⟨by decide, by decide, by decide, by decide⟩

/-- C5 (amended): for every authorized update of an existing work order, a
status notification addressed to the order's client is emitted exactly when
the request provides a non-null status value, whether or not that value
differs from the stored status; none is emitted when status is absent. -/
theorem update_status_notification_on_provided (work_order_id : String)
    (updates : WorkOrderUpdate) (current_user : User) (db : DB)
    (nId1 nId2 now : String) (wo : WorkOrder)
    (hok : (update_work_order work_order_id updates current_user db nId1 nId2 now).1 = .ok wo) :
    ((update_work_order work_order_id updates current_user db nId1 nId2
        now).2.notifications.filter
        (fun n => n.title == "Work Order Updated")).map Notification.user_id =
      (db.notifications.filter
        (fun n => n.title == "Work Order Updated")).map Notification.user_id ++
        (if updates.status.isSome then [wo.client_id] else []) := by
  unfold update_work_order at hok ⊢
  cases hfind : db.work_orders.find? (fun w => w.id == work_order_id) with
  | none =>
    simp only [hfind] at hok
    simp at hok
  | some work_order =>
    simp only [hfind] at hok ⊢
    by_cases hc : (current_user.role == UserRole.client) = true
    · simp only [hc, if_true] at hok
      simp at hok
    · simp only [hc] at hok ⊢
      by_cases ht : (current_user.role == UserRole.technician
          && !(work_order.assigned_to_id == some current_user.id)) = true
      · simp only [ht] at hok
        simp at hok
      · simp only [ht] at hok ⊢
        by_cases hty : optTruthy updates.assigned_to_id = true
        · cases hfu : db.users.find? (fun u => some u.id == updates.assigned_to_id) with
          | none =>
            simp only [hty, hfu, if_true, Bool.false_eq_true, if_false] at hok ⊢
            simp only [Except.ok.injEq] at hok
            subst hok
            by_cases hs : updates.status.isSome = true
            · simp [hs, create_notification, List.filter_append]
            · simp [hs, create_notification, List.filter_append]
          | some tech =>
            simp only [hty, hfu, if_true, Bool.false_eq_true, if_false] at hok ⊢
            simp only [Except.ok.injEq] at hok
            subst hok
            by_cases hs : updates.status.isSome = true
            · simp [hs, create_notification, List.filter_append]
            · simp [hs, create_notification, List.filter_append]
        · simp only [hty, Bool.false_eq_true, if_false] at hok ⊢
          simp only [Except.ok.injEq] at hok
          subst hok
          by_cases hs : updates.status.isSome = true
          · simp [hs, create_notification, List.filter_append]
          · simp [hs, create_notification, List.filter_append]

/-- The order returned by the witness update of C5. -/
def c5wo : WorkOrder := { woA with status := .completed, updated_at := "t5" }

/-- Witness for the amended C5 at a concrete status-changing update. -/
theorem update_status_notification_on_provided_witness :
    ((update_work_order "wo-1" statusNewUpdate adminUser dbOne "na" "nb" "t5").1 =
      .ok c5wo) ∧
    ((update_work_order "wo-1" statusNewUpdate adminUser dbOne "na" "nb"
        "t5").2.notifications.filter
        (fun n => n.title == "Work Order Updated")).map Notification.user_id =
      (dbOne.notifications.filter
        (fun n => n.title == "Work Order Updated")).map Notification.user_id ++
        (if statusNewUpdate.status.isSome then [c5wo.client_id] else []) :=
  ⟨by decide,
   update_status_notification_on_provided "wo-1" statusNewUpdate adminUser dbOne
     "na" "nb" "t5" c5wo (by decide)⟩

/-! Claim C6. -/

/-- Counterexample to C6 as stated: creating with an assignee id that is the
empty string (an assignee id is given, but Python truthiness rejects it)
succeeds and emits exactly one notification, not two. -/
theorem create_empty_assignee_single_notification :
    (create_work_order woCreateEmptyAssignee adminUser db0 "w" "na" "nb" "t").1.isOk = true ∧
    (create_work_order woCreateEmptyAssignee adminUser db0 "w" "na" "nb"
        "t").2.notifications.map Notification.user_id = ["u-client"] ∧
    (["u-client"] : List String).length ≠ 2 := by
  refine ⟨by decide, by decide, by decide⟩

/-- C6 (amended): every successful creation emits notifications to exactly
these recipients, in order: the client, then the assignee when a non-empty
assignee id is given; so one notification without an assignee id (or with an
empty one) and two with a non-empty assignee id. -/
theorem create_work_order_notification_recipients (wo_data : WorkOrderCreate)
    (current_user : User) (db : DB) (woId nId1 nId2 now : String)
    (hok : (create_work_order wo_data current_user db woId nId1 nId2 now).1.isOk = true) :
    (create_work_order wo_data current_user db woId nId1 nId2 now).2.notifications.map
        Notification.user_id =
      db.notifications.map Notification.user_id ++
        (match wo_data.assigned_to_id with
         | some tid => if tid = "" then [wo_data.client_id] else [wo_data.client_id, tid]
         | none => [wo_data.client_id]) := by
  by_cases hr : requiresRole [.admin, .supervisor] current_user
  · simp only [create_work_order, hr, Bool.not_true, Bool.false_eq_true, if_false] at hok ⊢
    cases hfc : db.users.find? (fun u => u.id == wo_data.client_id) with
    | none =>
      simp only [hfc] at hok
      simp [Except.isOk, Except.toBool] at hok
    | some client =>
      simp only [hfc] at hok ⊢
      cases hat : wo_data.assigned_to_id with
      | none => simp [optTruthy, create_notification]
      | some tid =>
        by_cases hne : tid = ""
        · subst hne
          have he : ("" : String).isEmpty = true := rfl
          simp [optTruthy, create_notification, he]
        · have hne2 : tid.isEmpty = false := by
            rw [Bool.eq_false_iff]
            intro hcon
            exact hne ((String.isEmpty_iff tid).mp hcon)
          simp [optTruthy, create_notification, hne2, hne]
  · simp at hr
    simp [create_work_order, hr, Except.isOk, Except.toBool] at hok

/-- Witness for the amended C6 at a concrete creation with an assignee. -/
theorem create_work_order_notification_recipients_witness :
    ((create_work_order woCreateTech adminUser db0 "w" "na" "nb" "t").1.isOk = true) ∧
    (create_work_order woCreateTech adminUser db0 "w" "na" "nb" "t").2.notifications.map
        Notification.user_id =
      db0.notifications.map Notification.user_id ++
        (match woCreateTech.assigned_to_id with
         | some tid => if tid = "" then [woCreateTech.client_id]
                       else [woCreateTech.client_id, tid]
         | none => [woCreateTech.client_id]) :=
  ⟨by decide,
   create_work_order_notification_recipients woCreateTech adminUser db0 "w" "na" "nb" "t"
     (by decide)⟩

/-! Claim C9. -/

/-- Finding the target order after replacing the first match outright returns
the replacement, provided the replacement keeps the searched id. -/
theorem find?_updateFirst_const_wo (woid : String) (y : WorkOrder)
    (hy : (y.id == woid) = true) (l : List WorkOrder) :
    (updateFirst (fun w => w.id == woid) (fun _ => y) l).find? (fun w => w.id == woid) =
      (l.find? (fun w => w.id == woid)).map (fun _ => y) :=
  find?_updateFirst _ _ l (fun _ _ => hy)

/-- A PATCH body carrying only total_cost = 999. -/
def upCost999 : WorkOrderUpdate := { noUpdate with total_cost := some 999 }

/-- A stored cost entry of amount 10 on the sample order. -/
def ce10 : CostEntry :=
  { id := "ce10", work_order_id := "wo-1", description := "parts",
    cost_type := "material", amount := 10, created_by_id := "u-tech",
    created_by_name := "Tech", created_at := "t1" }

/-- The sample store with the order and one cost entry of amount 10. -/
def dbCost : DB := { dbOne with cost_entries := [ce10] }

/-- C9: an authorized update providing total_cost writes the value verbatim
into the stored order without consulting the cost entries (which are left
untouched), so the public PATCH interface can set total_cost to a value
different from the sum of the order's entries, as the concrete run setting
999 against stored entries summing to 10 shows. -/
theorem update_writes_total_cost_verbatim :
    (∀ (work_order_id : String) (updates : WorkOrderUpdate) (current_user : User)
        (db : DB) (nId1 nId2 now : String) (v : Rat) (wo : WorkOrder),
      updates.total_cost = some v →
      (update_work_order work_order_id updates current_user db nId1 nId2 now).1 = .ok wo →
      wo.total_cost = v ∧
      ((update_work_order work_order_id updates current_user db nId1 nId2
          now).2.work_orders.find? (fun w => w.id == work_order_id)) = some wo ∧
      (update_work_order work_order_id updates current_user db nId1 nId2
          now).2.cost_entries = db.cost_entries) ∧
    (((update_work_order "wo-1" upCost999 adminUser dbCost "na" "nb"
        "t8").2.work_orders.find? (fun w => w.id == "wo-1")).map WorkOrder.total_cost =
      some 999 ∧
     ((dbCost.cost_entries.filter (fun c => c.work_order_id == "wo-1")).map
        CostEntry.amount).sum = 10 ∧
     (999 : Rat) ≠ 10) := by
  constructor
  · intro work_order_id updates current_user db nId1 nId2 now v wo hv hok
    unfold update_work_order at hok ⊢
    cases hfind : db.work_orders.find? (fun w => w.id == work_order_id) with
    | none =>
      simp only [hfind] at hok
      simp at hok
    | some work_order =>
      simp only [hfind] at hok ⊢
      by_cases hc : (current_user.role == UserRole.client) = true
      · simp only [hc, if_true] at hok
        simp at hok
      · simp only [hc] at hok ⊢
        by_cases ht : (current_user.role == UserRole.technician
            && !(work_order.assigned_to_id == some current_user.id)) = true
        · simp only [ht] at hok
          simp at hok
        · simp only [ht] at hok ⊢
          by_cases hty : optTruthy updates.assigned_to_id = true
          · cases hfu : db.users.find? (fun u => some u.id == updates.assigned_to_id) with
            | none =>
              simp only [hty, hfu, if_true, Bool.false_eq_true, if_false] at hok ⊢
              simp only [Except.ok.injEq] at hok
              have hq : (wo.id == work_order_id) = true := by
                rw [← hok]
                simpa using List.find?_some hfind
              refine ⟨by rw [← hok]; simp [hv], ?_, ?_⟩
              · by_cases hs : updates.status.isSome = true
                · rw [hok]
                  simp [hs, create_notification, find?_updateFirst_const_wo _ wo hq, hfind]
                · rw [hok]
                  simp [hs, create_notification, find?_updateFirst_const_wo _ wo hq, hfind]
              · by_cases hs : updates.status.isSome = true
                · simp [hs, create_notification]
                · simp [hs, create_notification]
            | some tech =>
              simp only [hty, hfu, if_true, Bool.false_eq_true, if_false] at hok ⊢
              simp only [Except.ok.injEq] at hok
              have hq : (wo.id == work_order_id) = true := by
                rw [← hok]
                simpa using List.find?_some hfind
              refine ⟨by rw [← hok]; simp [hv], ?_, ?_⟩
              · by_cases hs : updates.status.isSome = true
                · rw [hok]
                  simp [hs, create_notification, find?_updateFirst_const_wo _ wo hq, hfind]
                · rw [hok]
                  simp [hs, create_notification, find?_updateFirst_const_wo _ wo hq, hfind]
              · by_cases hs : updates.status.isSome = true
                · simp [hs, create_notification]
                · simp [hs, create_notification]
          · simp only [hty, Bool.false_eq_true, if_false] at hok ⊢
            simp only [Except.ok.injEq] at hok
            have hq : (wo.id == work_order_id) = true := by
              rw [← hok]
              simpa using List.find?_some hfind
            refine ⟨by rw [← hok]; simp [hv], ?_, ?_⟩
            · by_cases hs : updates.status.isSome = true
              · rw [hok]
                simp [hs, create_notification, find?_updateFirst_const_wo _ wo hq, hfind]
              · rw [hok]
                simp [hs, create_notification, find?_updateFirst_const_wo _ wo hq, hfind]
            · by_cases hs : updates.status.isSome = true
              · simp [hs, create_notification]
              · simp [hs, create_notification]
  · refine ⟨?_, ?_, ?_⟩
    · decide
    · norm_num [dbCost, ce10]
    · norm_num

/-- The order returned by the witness update of C9. -/
def c9wo : WorkOrder := { woA with total_cost := 999, updated_at := "t8" }

/-- Witness for C9 applying the verbatim-write property at a store whose
entries sum to 10 while the PATCH sets 999. -/
theorem update_writes_total_cost_verbatim_witness :
    upCost999.total_cost = some 999 ∧
    ((update_work_order "wo-1" upCost999 adminUser dbCost "na" "nb" "t8").1 = .ok c9wo) ∧
    (c9wo.total_cost = 999 ∧
     ((update_work_order "wo-1" upCost999 adminUser dbCost "na" "nb"
        "t8").2.work_orders.find? (fun w => w.id == "wo-1")) = some c9wo ∧
     (update_work_order "wo-1" upCost999 adminUser dbCost "na" "nb"
        "t8").2.cost_entries = dbCost.cost_entries) :=
  ⟨rfl, by decide,
   update_writes_total_cost_verbatim.1 "wo-1" upCost999 adminUser dbCost "na" "nb" "t8"
     999 c9wo rfl (by decide)⟩

/-! Claim C8. -/

/-- Rounding zero to two decimals gives zero. -/
theorem pyRound2_zero : pyRound2 0 = 0 := by
  norm_num [pyRound2, roundHalfEven]

/-- C8: the dashboard completion rate equals (completed + approved) divided
by the total of the caller's role-scoped orders, times 100, rounded to two
decimals, and it is 0 when the scoped set is empty. -/
theorem dashboard_completion_rate_spec (current_user : User) (db : DB) :
    ((get_dashboard_stats current_user db).completion_rate =
      if (get_work_orders current_user db).length = 0 then 0
      else pyRound2 (((((get_work_orders current_user db).countP
            (fun wo => wo.status == WorkOrderStatus.completed) +
          (get_work_orders current_user db).countP
            (fun wo => wo.status == WorkOrderStatus.approved) : Nat) : Rat)) /
          ((get_work_orders current_user db).length : Rat) * 100)) ∧
    ((get_dashboard_stats current_user db).total_orders = 0 →
      (get_dashboard_stats current_user db).completion_rate = 0) := by
  have hlen : (get_work_orders current_user db).length =
      db.work_orders.countP (woScope current_user) := by
    unfold get_work_orders
    rw [(List.mergeSort_perm _ _).length_eq, ← List.countP_eq_length_filter]
  have hcnt : ∀ s : WorkOrderStatus, (get_work_orders current_user db).countP
      (fun wo => wo.status == s) =
      db.work_orders.countP (fun wo => woScope current_user wo && wo.status == s) := by
    intro s
    unfold get_work_orders
    rw [List.Perm.countP_eq _ (List.mergeSort_perm _ _), List.countP_filter]
    exact List.countP_congr (fun a _ => by rw [Bool.and_comm])
  constructor
  · rw [hcnt, hcnt, hlen]
    unfold get_dashboard_stats
    by_cases h0 : db.work_orders.countP (woScope current_user) = 0
    · simp [h0, pyRound2_zero]
    · have hpos : 0 < db.work_orders.countP (woScope current_user) := Nat.pos_of_ne_zero h0
      simp [h0, hpos, Nat.cast_add]
  · intro h
    unfold get_dashboard_stats at h ⊢
    simp only [] at h
    simp [h, pyRound2_zero]

/-- Witness for C8 at the empty scope: no orders, completion rate zero. -/
theorem dashboard_completion_rate_spec_witness :
    (get_dashboard_stats adminUser db0).total_orders = 0 ∧
    (get_dashboard_stats adminUser db0).completion_rate = 0 :=
  ⟨by decide, (dashboard_completion_rate_spec adminUser db0).2 (by decide)⟩

/-! Claim C4.  The request-id format is WO- followed by the zero-padded count
of existing orders plus one.  To reason about the numbers behind the padded
strings we prove that the rendering is injective by exhibiting a parser. -/

/-- The numeric value of a least-significant-first decimal digit list. -/
def valLSB : List Nat → Nat
  | [] => 0
  | d :: ds => d + 10 * valLSB ds

/-- The digit computation is correct: its value is the input. -/
theorem valLSB_decDigitsAux (fuel : Nat) :
    ∀ n, n ≤ fuel → valLSB (decDigitsAux fuel n) = n := by
  induction fuel with
  | zero =>
    intro n h
    have hz : n = 0 := Nat.le_zero.mp h
    subst hz
    rfl
  | succ f ih =>
    intro n h
    cases n with
    | zero => rfl
    | succ m =>
      have hdiv : (m + 1) / 10 ≤ f := by
        have h2 : (m + 1) / 10 < m + 1 := Nat.div_lt_self (Nat.succ_pos m) (by norm_num)
        omega
      simp only [decDigitsAux, valLSB, ih _ hdiv]
      omega

/-- Every produced digit is below ten. -/
theorem decDigitsAux_lt_ten (fuel : Nat) :
    ∀ n d, d ∈ decDigitsAux fuel n → d < 10 := by
  induction fuel with
  | zero =>
    intro n d hd
    cases n <;> simp [decDigitsAux] at hd
  | succ f ih =>
    intro n d hd
    cases n with
    | zero => simp [decDigitsAux] at hd
    | succ m =>
      simp only [decDigitsAux, List.mem_cons] at hd
      rcases hd with h | h
      · subst h
        exact Nat.mod_lt _ (by norm_num)
      · exact ih _ _ h

/-- Parsing a character list as a most-significant-first decimal numeral. -/
def valChars (cs : List Char) : Nat :=
  cs.foldl (fun a c => a * 10 + (c.toNat - 48)) 0

/-- Leading zero characters only scale the accumulator. -/
theorem foldl_digit_zeros (k : Nat) :
    ∀ a, List.foldl (fun a c => a * 10 + (c.toNat - 48)) a (List.replicate k '0') =
      a * 10 ^ k := by
  induction k with
  | zero => intro a; simp
  | succ k ih =>
    intro a
    rw [List.replicate_succ, List.foldl_cons]
    have hz : ('0' : Char).toNat - 48 = 0 := rfl
    rw [hz, ih]
    ring

/-- Folding the rendered digit characters recovers the digit-list value. -/
theorem foldl_digitChars (ds : List Nat) (h : ∀ d ∈ ds, d < 10) :
    ∀ a, List.foldl (fun a c => a * 10 + (c.toNat - 48)) a (ds.reverse.map Nat.digitChar) =
      a * 10 ^ ds.length + valLSB ds := by
  induction ds with
  | nil => intro a; simp [valLSB]
  | cons d ds ih =>
    intro a
    have hd : d < 10 := h d (List.mem_cons_self _ _)
    have hds : ∀ x ∈ ds, x < 10 := fun x hx => h x (List.mem_cons_of_mem _ hx)
    have hchar : (Nat.digitChar d).toNat - 48 = d := by
      have hall : ∀ x < 10, (Nat.digitChar x).toNat - 48 = x := by decide
      exact hall d hd
    rw [List.reverse_cons, List.map_append, List.foldl_append, ih hds a]
    simp only [List.map_cons, List.map_nil, List.foldl_cons, List.foldl_nil, hchar,
      valLSB, List.length_cons, pow_succ]
    ring

/-- Parsing the padded rendering of n yields n back. -/
theorem valChars_pad5_data (n : Nat) : valChars (pad5 n).data = n := by
  have hlt : ∀ d ∈ decDigits n, d < 10 := fun d hd => decDigitsAux_lt_ten n n d hd
  show List.foldl _ 0
    (List.replicate (5 - ((decDigits n).reverse.map Nat.digitChar).length) '0' ++
      (decDigits n).reverse.map Nat.digitChar) = n
  rw [List.foldl_append, foldl_digit_zeros, foldl_digitChars _ hlt]
  simp [decDigits, valLSB_decDigitsAux n n (le_refl n)]

/-- The zero-padded rendering is injective. -/
theorem pad5_injective {m n : Nat} (h : pad5 m = pad5 n) : m = n := by
  have h2 := congrArg (fun s => valChars s.data) h
  simpa [valChars_pad5_data] using h2

/-- Two equal request-id strings come from the same sequence number. -/
theorem wo_request_id_inj {m n : Nat}
    (h : "WO-" ++ pad5 m = "WO-" ++ pad5 n) : m = n := by
  apply pad5_injective
  have hd := congrArg String.data h
  simp only [String.data_append] at hd
  exact String.ext (List.append_cancel_left hd)

/-- A work-order mutation of a sequential run: a create (with the request
data, the acting user and the drawn uuid and timestamp values) or a delete. -/
inductive WOOp where
  | create (wo_data : WorkOrderCreate) (actor : User) (woId nId1 nId2 now : String)
  | del (work_order_id : String) (actor : User)

/-- Whether a run operation is a create. -/
def WOOp.isCreate : WOOp → Bool
  | .create _ _ _ _ _ _ => true
  | .del _ _ => false

/-- The store after one operation of a sequential run. -/
def runStep (db : DB) : WOOp → DB
  | .create d u i a b t => (create_work_order d u db i a b t).2
  | .del woid u => (delete_work_order woid u db).2

/-- The sequence numbers (count of existing orders plus one) assigned by the
successful creates of a run, in execution order. -/
def assignedNums (db : DB) : List WOOp → List Nat
  | [] => []
  | op :: rest =>
    (match op with
     | .create d u i a b t =>
       (match (create_work_order d u db i a b t).1 with
        | .ok _ => [db.work_orders.length + 1]
        | .error _ => [])
     | .del _ _ => []) ++ assignedNums (runStep db op) rest

/-- The request ids assigned by the successful creates of a run, in order. -/
def assignedIds (db : DB) : List WOOp → List String
  | [] => []
  | op :: rest =>
    (match op with
     | .create d u i a b t =>
       (match (create_work_order d u db i a b t).1 with
        | .ok wo => [wo.request_id]
        | .error _ => [])
     | .del _ _ => []) ++ assignedIds (runStep db op) rest

/-- Every successful creation assigns the request id WO- followed by the
padded count plus one, and grows the store by exactly one order. -/
theorem create_work_order_ok_spec (wo_data : WorkOrderCreate) (current_user : User)
    (db : DB) (woId nId1 nId2 now : String) (wo : WorkOrder)
    (hok : (create_work_order wo_data current_user db woId nId1 nId2 now).1 = .ok wo) :
    wo.request_id = "WO-" ++ pad5 (db.work_orders.length + 1) ∧
    (create_work_order wo_data current_user db woId nId1 nId2 now).2.work_orders.length =
      db.work_orders.length + 1 := by
  by_cases hr : requiresRole [.admin, .supervisor] current_user
  · simp only [create_work_order, hr, Bool.not_true, Bool.false_eq_true, if_false] at hok ⊢
    cases hfc : db.users.find? (fun u => u.id == wo_data.client_id) with
    | none =>
      simp only [hfc] at hok
      simp at hok
    | some client =>
      simp only [hfc] at hok ⊢
      simp only [Except.ok.injEq] at hok
      constructor
      · rw [← hok]
      · by_cases hty : optTruthy wo_data.assigned_to_id = true
        · simp [hty, create_notification]
        · simp [hty, create_notification]
  · simp at hr
    simp [create_work_order, hr] at hok

/-- A failed creation leaves the store unchanged. -/
theorem create_work_order_error_db (wo_data : WorkOrderCreate) (current_user : User)
    (db : DB) (woId nId1 nId2 now : String) (e : HTTPException)
    (herr : (create_work_order wo_data current_user db woId nId1 nId2 now).1 = .error e) :
    (create_work_order wo_data current_user db woId nId1 nId2 now).2 = db := by
  by_cases hr : requiresRole [.admin, .supervisor] current_user
  · simp only [create_work_order, hr, Bool.not_true, Bool.false_eq_true, if_false] at herr ⊢
    cases hfc : db.users.find? (fun u => u.id == wo_data.client_id) with
    | none => simp [hfc]
    | some client =>
      simp only [hfc] at herr
      simp at herr
  · simp at hr
    simp [create_work_order, hr]

/-- In a creates-only run every assigned number exceeds the starting count. -/
theorem assignedNums_lower (ops : List WOOp) :
    ∀ db, (∀ op ∈ ops, op.isCreate = true) →
      ∀ x ∈ assignedNums db ops, db.work_orders.length + 1 ≤ x := by
  induction ops with
  | nil =>
    intro db _ x hx
    simp [assignedNums] at hx
  | cons op rest ih =>
    intro db hC x hx
    have hCr : ∀ o ∈ rest, o.isCreate = true := fun o ho => hC o (List.mem_cons_of_mem _ ho)
    cases op with
    | del woid u =>
      have := hC _ (List.mem_cons_self _ _)
      simp [WOOp.isCreate] at this
    | create d u i a b t =>
      simp only [assignedNums] at hx
      cases hres : (create_work_order d u db i a b t).1 with
      | ok wo =>
        rw [hres] at hx
        simp only [List.mem_append, List.mem_singleton] at hx
        rcases hx with h1 | h2
        · omega
        · have hlen := (create_work_order_ok_spec d u db i a b t wo hres).2
          have hstep := ih (runStep db (.create d u i a b t)) hCr x h2
          simp only [runStep] at hstep
          rw [hlen] at hstep
          omega
      | error e =>
        rw [hres] at hx
        simp only [List.nil_append] at hx
        have hdb := create_work_order_error_db d u db i a b t e hres
        have hstep := ih (runStep db (.create d u i a b t)) hCr x hx
        simp only [runStep, hdb] at hstep
        exact hstep

/-- In a creates-only run the assigned numbers are strictly increasing. -/
theorem assignedNums_sorted (ops : List WOOp) :
    ∀ db, (∀ op ∈ ops, op.isCreate = true) →
      List.Sorted (· < ·) (assignedNums db ops) := by
  induction ops with
  | nil =>
    intro db _
    simp [assignedNums]
  | cons op rest ih =>
    intro db hC
    have hCr : ∀ o ∈ rest, o.isCreate = true := fun o ho => hC o (List.mem_cons_of_mem _ ho)
    cases op with
    | del woid u =>
      have := hC _ (List.mem_cons_self _ _)
      simp [WOOp.isCreate] at this
    | create d u i a b t =>
      simp only [assignedNums]
      cases hres : (create_work_order d u db i a b t).1 with
      | error e =>
        simp only [List.nil_append]
        exact ih _ hCr
      | ok wo =>
        simp only [List.singleton_append]
        rw [List.sorted_cons]
        constructor
        · intro y hy
          have hlen := (create_work_order_ok_spec d u db i a b t wo hres).2
          have hlow := assignedNums_lower rest (runStep db (.create d u i a b t)) hCr y hy
          simp only [runStep] at hlow
          rw [hlen] at hlow
          omega
        · exact ih _ hCr

/-- The assigned ids are exactly the padded renderings of the numbers. -/
theorem assignedIds_eq_map (ops : List WOOp) :
    ∀ db, assignedIds db ops = (assignedNums db ops).map (fun k => "WO-" ++ pad5 k) := by
  induction ops with
  | nil => intro db; rfl
  | cons op rest ih =>
    intro db
    cases op with
    | del woid u =>
      simp only [assignedIds, assignedNums, List.nil_append]
      exact ih _
    | create d u i a b t =>
      simp only [assignedIds, assignedNums]
      cases hres : (create_work_order d u db i a b t).1 with
      | error e => simpa using ih _
      | ok wo =>
        have hfmt := (create_work_order_ok_spec d u db i a b t wo hres).1
        simp [hfmt, ih _]

/-- In a creates-only run the assigned ids are pairwise distinct. -/
theorem assignedIds_pairwise_ne (ops : List WOOp) (db : DB)
    (hC : ∀ op ∈ ops, op.isCreate = true) :
    (assignedIds db ops).Pairwise (· ≠ ·) := by
  rw [assignedIds_eq_map]
  have hs : (assignedNums db ops).Pairwise (· < ·) := assignedNums_sorted ops db hC
  exact hs.map _ (fun a b hab heq => by have := wo_request_id_inj heq; omega)

/-- The run create, create, delete, create on the sample store. -/
def c4ops : List WOOp :=
  [.create woCreateNoAssignee adminUser "w1" "n1" "n2" "t1",
   .create woCreateNoAssignee adminUser "w2" "n3" "n4" "t2",
   .del "w1" adminUser,
   .create woCreateNoAssignee adminUser "w3" "n5" "n6" "t3"]

/-- Counterexample to C4 as stated: with a delete interleaved, the run
create, create, delete, create assigns WO-00002 twice, so the assigned ids of
a run with deletes are neither monotonically increasing nor distinct. -/
theorem request_id_reused_after_delete :
    assignedIds db0 c4ops = ["WO-00001", "WO-00002", "WO-00002"] ∧
    ¬ (assignedIds db0 c4ops).Pairwise (fun a b => a ≠ b) := by
  constructor
  · decide
  · decide

/-- C4 (amended): every successful creation is assigned the request id WO-
followed by the count of already-stored orders plus one, zero-padded to five
digits, and in a sequential run of creates with no deletes the underlying
sequence numbers strictly increase, the ids are their renderings, and the
ids are pairwise distinct.  (With deletes interleaved the counter can fall
back and ids repeat.) -/
theorem request_id_assignment :
    (∀ (wo_data : WorkOrderCreate) (current_user : User) (db : DB)
        (woId nId1 nId2 now : String) (wo : WorkOrder),
      (create_work_order wo_data current_user db woId nId1 nId2 now).1 = .ok wo →
      wo.request_id = "WO-" ++ pad5 (db.work_orders.length + 1) ∧
      (create_work_order wo_data current_user db woId nId1 nId2
          now).2.work_orders.length = db.work_orders.length + 1) ∧
    (∀ (db : DB) (ops : List WOOp), (∀ op ∈ ops, op.isCreate = true) →
      List.Sorted (· < ·) (assignedNums db ops) ∧
      assignedIds db ops = (assignedNums db ops).map (fun k => "WO-" ++ pad5 k) ∧
      (assignedIds db ops).Pairwise (· ≠ ·)) := by
  constructor
  · intro wo_data current_user db woId nId1 nId2 now wo hok
    exact create_work_order_ok_spec wo_data current_user db woId nId1 nId2 now wo hok
  · intro db ops hC
    exact ⟨assignedNums_sorted ops db hC, assignedIds_eq_map ops db,
      assignedIds_pairwise_ne ops db hC⟩

/-- The creates-only prefix run used by the C4 witness. -/
def c4createOps : List WOOp :=
  [.create woCreateNoAssignee adminUser "w1" "n1" "n2" "t1",
   .create woCreateNoAssignee adminUser "w2" "n3" "n4" "t2",
   .create woCreateNoAssignee adminUser "w3" "n5" "n6" "t3"]

/-- The order created by the witness creation of C4. -/
def c4wo1 : WorkOrder :=
  ((create_work_order woCreateNoAssignee adminUser db0 "w1" "n1" "n2" "t1").1.toOption).getD
    woA

/-- Witness for the amended C4: the format at a concrete creation, and the
monotone distinct ids of a concrete creates-only run. -/
theorem request_id_assignment_witness :
    (((create_work_order woCreateNoAssignee adminUser db0 "w1" "n1" "n2" "t1").1 =
        .ok c4wo1) ∧
     (c4wo1.request_id = "WO-" ++ pad5 (db0.work_orders.length + 1) ∧
      (create_work_order woCreateNoAssignee adminUser db0 "w1" "n1" "n2"
          "t1").2.work_orders.length = db0.work_orders.length + 1)) ∧
    ((∀ op ∈ c4createOps, op.isCreate = true) ∧
     (List.Sorted (· < ·) (assignedNums db0 c4createOps) ∧
      assignedIds db0 c4createOps =
        (assignedNums db0 c4createOps).map (fun k => "WO-" ++ pad5 k) ∧
      (assignedIds db0 c4createOps).Pairwise (· ≠ ·))) :=
  ⟨⟨by decide,
    request_id_assignment.1 woCreateNoAssignee adminUser db0 "w1" "n1" "n2" "t1" c4wo1
      (by decide)⟩,
   ⟨by decide, request_id_assignment.2 db0 c4createOps (by decide)⟩⟩

end SjfCrm
